import Mathlib

set_option linter.unusedVariables false

/-!
Shallow embedding of `generic_chooser/widgets.py` (wagtail-generic-chooser).

The file embeds the two widget classes `AdminChooser` and `DRFChooser`.
Python dynamic values are modelled by small inductive types; exceptions by
an `Except PyExc` result; the external dependencies (the Django ORM, URL
reversal via `reverse`, the `requests` HTTP client) are modelled as
function-valued parameters supplied by the environment, since they are not
code of this repository.
-/

/-- A Python scalar value usable as a widget value or primary key. -/
inductive PyScalar where
  | int (n : Int)
  | str (s : String)
deriving DecidableEq, Repr

/-- A Django model instance as the widget sees it: the model class it
belongs to (by name), its primary key (`pk`, which is `None` for an
unsaved instance), and its `str()` representation. -/
structure ModelInstance where
  modelName : String
  pk : Option PyScalar
  strRepr : String
deriving DecidableEq, Repr

/-- A JSON value appearing as a field of an API response object. -/
inductive JVal where
  | null
  | jbool (b : Bool)
  | jnum (n : Int)
  | jstr (s : String)
deriving DecidableEq, Repr

/-- A decoded JSON object (Python dict) returned by the DRF API. -/
abbrev JsonDict := List (String × JVal)

/-- A non-None Python value passed into the widget: either a scalar
(a pk / id) or a model instance object. -/
inductive RawValue where
  | scalar (v : PyScalar)
  | obj (i : ModelInstance)
deriving DecidableEq, Repr

/-- The `instance` a chooser works with: a model instance for the ORM
variant, a decoded JSON dict for the DRF variant. -/
inductive Inst where
  | m (i : ModelInstance)
  | j (d : JsonDict)
deriving DecidableEq, Repr

/-- The Python exceptions that the embedded code can raise or catch.
`objectDoesNotExist none msg` is the generic
`django.core.exceptions.ObjectDoesNotExist`; `objectDoesNotExist (some M) msg`
is the model-specific subclass `M.DoesNotExist`. -/
inductive PyExc where
  | objectDoesNotExist (modelName : Option String) (msg : String)
  | keyError (key : String)
  | attributeError (msg : String)
  | requestsConnectionError (msg : String)
  | jsonDecodeError (msg : String)
deriving DecidableEq, Repr

/-- The value-description payload built by `get_value_data`
(source lines 101-112): the three fields of the returned dict. -/
structure Payload where
  value : Option RawValue
  title : String
  edit_item_url : Option String
deriving DecidableEq, Repr

/-- The payload dict rendered as an association list, making the exact
key set of the returned dict visible. -/
def Payload.toDict (p : Payload) : List (String × Option RawValue) :=
  [("value", p.value),
   ("title", some (RawValue.scalar (PyScalar.str p.title))),
   ("edit_item_url", p.edit_item_url.map (fun s => RawValue.scalar (PyScalar.str s)))]

/-- The empty-selection payload returned when no instance is available. -/
def emptyPayload : Payload :=
  { value := none, title := "", edit_item_url := none }

/-- The Django ORM boundary: a model class, named (for its `DoesNotExist`
exception class), with `objects.get(pk=...)` modelled as a function from
the looked-up value to a result or an exception. -/
structure Model where
  name : String
  objects_get : RawValue → Except PyExc ModelInstance

/-- The Django URL resolver boundary: arguments passed to `reverse`. -/
inductive UrlArg where
  | scalar (v : Option PyScalar)
  | json (j : JVal)
deriving DecidableEq, Repr

/-- The Django URL resolver boundary: `reverse(name, args=(arg,))`. -/
structure UrlConf where
  reverse : String → UrlArg → String

/-- The `requests` HTTP boundary: `requests.get(url).json()`, returning a
decoded JSON object or raising a network / JSON-decode exception. -/
structure Http where
  fetch : String → Except PyExc JsonDict

/-- An upper-case hexadecimal digit, for Django admin quoting. -/
def hexDigit (n : Nat) : Char :=
  if n < 10 then Char.ofNat (48 + n) else Char.ofNat (55 + n)

/-- The characters escaped by `django.contrib.admin.utils.quote`:
`"`, `:`, `/`, `_`, `#`, `?`, `;`, `@`, `&`, `=`, `+`, `$`, `,`,
`[`, `]`, `<`, `>`, `%` and backslash. -/
def QUOTE_CHARS : List Char :=
  [Char.ofNat 34, ':', '/', '_', '#', '?', ';', '@', '&', '=', '+', '$',
   Char.ofNat 44, '[', ']', '<', '>', '%', Char.ofNat 92]

/-- Quote a single character as `django.contrib.admin.utils.quote` does:
a special character becomes an underscore followed by its two-digit
upper-case hex code. -/
def quoteChar (c : Char) : List Char :=
  if c ∈ QUOTE_CHARS then
    ['_', hexDigit (c.toNat / 16 % 16), hexDigit (c.toNat % 16)]
  else
    [c]

/-- `django.contrib.admin.utils.quote` on a string. -/
def quoteStr (s : String) : String :=
  String.mk (s.toList.map quoteChar).flatten

/-- `django.contrib.admin.utils.quote`: strings are translated
character-wise, any non-string value is returned unchanged. -/
def djangoQuote : PyScalar → PyScalar
  | .str s => .str (quoteStr s)
  | v => v

/-- `quote` applied to a raw widget value: only strings change. -/
def rawQuote : RawValue → RawValue
  | .scalar v => .scalar (djangoQuote v)
  | v => v

/-- Python `str()` of a scalar, as used by `%s` formatting. -/
def pyStr : PyScalar → String
  | .int n => toString n
  | .str s => s

/-- Python `str()` of a raw value, as used by `%s` formatting. -/
def rawPyStr : RawValue → String
  | .scalar v => pyStr v
  | .obj i => i.strRepr

/-- Python `str()` of a JSON field value. -/
def JVal.pyStr : JVal → String
  | .null => "None"
  | .jbool true => "True"
  | .jbool false => "False"
  | .jnum n => toString n
  | .jstr s => s

/-- Python `str()` of the instance a chooser holds: `str(instance)` for a
model instance, the dict rendering for a decoded JSON object. -/
def strOfInst : Inst → String
  | .m i => i.strRepr
  | .j d => String.join (d.map (fun kv => kv.1 ++ "=" ++ kv.2.pyStr ++ ";"))

/-- The overridable method surface of a chooser widget, as
`get_value_data` (source lines 83-112) sees it through `self`:
the configured `model` plus the dynamically dispatched
`get_instance`, `get_title` and `get_edit_item_url`. -/
structure ChooserEnv where
  model : Option Model
  get_instance : RawValue → Except PyExc Inst
  get_title : Inst → String
  get_edit_item_url : Inst → Except PyExc (Option String)

/-- Which exceptions the `except` clause on source line 98 catches:
`ObjectDoesNotExist` (hence every model-specific subclass) when
`self.model is None`, and only `self.model.DoesNotExist` when a model is
configured. -/
def catchesNotFound (model : Option Model) (e : PyExc) : Bool :=
  match e with
  | .objectDoesNotExist who _ =>
    match model with
    | none => true
    | some m => who = some m.name
  | _ => false

/-- Source lines 95-99: call `self.get_instance(value)`, turning the
configured not-found exception into `instance = None` and letting every
other exception propagate. Returns the `(instance, value)` pair the rest
of `get_value_data` uses. -/
def lookupStep (c : ChooserEnv) (v : RawValue) :
    Except PyExc (Option Inst × Option RawValue) :=
  match c.get_instance v with
  | .ok i => .ok (some i, some v)
  | .error e =>
    if catchesNotFound c.model e then .ok (none, some v) else .error e

/-- Whether the `elif self.model and isinstance(value, self.model)` branch
of source line 92 is taken for this input. -/
def isInstanceBranch (c : ChooserEnv) : Option RawValue → Bool
  | some (.obj i) =>
    match c.model with
    | some m => i.modelName = m.name
    | none => false
  | _ => false

/-- `AdminChooser.get_value_data` (source lines 83-112). The codomain is
`Option Payload` so that returning the Python value `None` (which this
implementation never does, but the surrounding widget protocol allows)
is expressible; every `return` in the source yields `some` payload. -/
def get_value_data (c : ChooserEnv) (value : Option RawValue) :
    Except PyExc (Option Payload) :=
  let step : Except PyExc (Option Inst × Option RawValue) :=
    match value with
    | none => .ok (none, none)
    | some v =>
      match c.model, v with
      | some m, .obj i =>
        if i.modelName = m.name then
          .ok (some (Inst.m i), i.pk.map RawValue.scalar)
        else
          lookupStep c v
      | some _, .scalar s => lookupStep c (.scalar s)
      | none, w => lookupStep c w
  match step with
  | .error e => .error e
  | .ok (none, _) => .ok (some emptyPayload)
  | .ok (some inst, v) =>
    match c.get_edit_item_url inst with
    | .error e => .error e
    | .ok u => .ok (some { value := v, title := c.get_title inst, edit_item_url := u })

/-- The per-class configuration of an `AdminChooser` widget relevant to
the embedded methods. -/
structure AdminChooserW where
  model : Option Model
  edit_item_url_name : Option String

/-- `AdminChooser.get_instance` (source lines 57-58):
`return self.model.objects.get(pk=value)`. Accessing `.objects` on a
`None` model raises `AttributeError`. -/
def AdminChooser.get_instance (w : AdminChooserW) (v : RawValue) :
    Except PyExc Inst :=
  match w.model with
  | none => .error (.attributeError "NoneType object has no attribute objects")
  | some m => (m.objects_get v).map Inst.m

/-- `AdminChooser.get_edit_item_url` (source lines 60-64): `None` when no
`edit_item_url_name` is configured, otherwise
`reverse(self.edit_item_url_name, args=(quote(instance.pk),))`.
Accessing `.pk` on a dict instance raises `AttributeError`. -/
def AdminChooser.get_edit_item_url (urls : UrlConf) (w : AdminChooserW)
    (inst : Inst) : Except PyExc (Option String) :=
  match w.edit_item_url_name with
  | none => .ok none
  | some n =>
    match inst with
    | .m i => .ok (some (urls.reverse n (UrlArg.scalar (i.pk.map djangoQuote))))
    | .j _ => .error (.attributeError "dict object has no attribute pk")

/-- The method surface of an `AdminChooser`: ORM `get_instance`, default
`get_title` = `str(instance)` (source lines 80-81), URL-name based
`get_edit_item_url`. -/
def AdminChooser.env (urls : UrlConf) (w : AdminChooserW) : ChooserEnv :=
  { model := w.model,
    get_instance := AdminChooser.get_instance w,
    get_title := strOfInst,
    get_edit_item_url := AdminChooser.get_edit_item_url urls w }

/-- `django.forms.Widget.value_from_datadict`: `return data.get(name)`,
which is `None` when the key is absent. -/
def Widget.value_from_datadict (data : List (String × String))
    (name : String) : Option String :=
  data.lookup name

/-- `AdminChooser.value_from_datadict` (source lines 72-78): delegate to
the superclass, then treat the empty string as `None`. The `files`
mapping is accepted and ignored, as in `Widget.value_from_datadict`. -/
def AdminChooser.value_from_datadict (data : List (String × String))
    (files : List (String × String)) (name : String) : Option String :=
  let result := Widget.value_from_datadict data name
  if result = some "" then none else result

/-- The per-class configuration of a `DRFChooser` widget. The inherited
`model` attribute defaults to `None` but remains overridable. -/
structure DRFChooserW where
  api_base_url : String
  edit_item_url_name : Option String
  model : Option Model

/-- The URL built on source line 180:
`'%s%s/?format=json' % (self.api_base_url, quote(id))`. -/
def DRFChooser.request_url (w : DRFChooserW) (id : RawValue) : String :=
  w.api_base_url ++ rawPyStr (rawQuote id) ++ "/?format=json"

/-- `DRFChooser.get_instance` (source lines 179-187). The first component
records the URLs requested over HTTP (always exactly the one built on
line 180); the second is the returned JSON object or the raised
exception: a response without an `id` key raises
`ObjectDoesNotExist(result['message'])`, where the subscript itself
raises `KeyError` if `message` is also absent. -/
def DRFChooser.get_instance (http : Http) (w : DRFChooserW) (id : RawValue) :
    List String × Except PyExc JsonDict :=
  let url := DRFChooser.request_url w id
  ([url],
    match http.fetch url with
    | .error e => .error e
    | .ok result =>
      match result.lookup "id" with
      | some _ => .ok result
      | none =>
        match result.lookup "message" with
        | some m => .error (.objectDoesNotExist none m.pyStr)
        | none => .error (.keyError "message"))

/-- `DRFChooser.get_edit_item_url` (source lines 189-193): `None` when no
`edit_item_url_name` is configured, otherwise
`reverse(self.edit_item_url_name, args=(instance['id'],))`. -/
def DRFChooser.get_edit_item_url (urls : UrlConf) (w : DRFChooserW)
    (inst : Inst) : Except PyExc (Option String) :=
  match w.edit_item_url_name with
  | none => .ok none
  | some n =>
    match inst with
    | .j d =>
      match d.lookup "id" with
      | some j => .ok (some (urls.reverse n (UrlArg.json j)))
      | none => .error (.keyError "id")
    | .m _ => .error (.attributeError "ModelInstance is not subscriptable")

/-- The method surface of a `DRFChooser`: HTTP `get_instance` wrapping the
decoded JSON object as the instance, inherited default `get_title`, and
the id-field based `get_edit_item_url`. -/
def DRFChooser.env (http : Http) (urls : UrlConf) (w : DRFChooserW) :
    ChooserEnv :=
  { model := w.model,
    get_instance := fun v => (DRFChooser.get_instance http w v).2.map Inst.j,
    get_title := strOfInst,
    get_edit_item_url := DRFChooser.get_edit_item_url urls w }

/-- Network and JSON-decode failures of the remote GET, the exceptions the
spec says are never caught. -/
def isTransportError : PyExc → Bool
  | .requestsConnectionError _ => true
  | .jsonDecodeError _ => true
  | _ => false

/-! ### Concrete fixtures used by witnesses and counterexamples -/

/-- A concrete model whose `objects.get` finds pk 1 and raises its own
`DoesNotExist` for everything else. -/
def modelX : Model :=
  { name := "Page",
    objects_get := fun v =>
      match v with
      | .scalar (.int 1) => .ok { modelName := "Page", pk := some (.int 1), strRepr := "Home" }
      | _ => .error (.objectDoesNotExist (some "Page") "Page matching query does not exist") }

/-- A concrete model whose `objects.get` always raises its own
`DoesNotExist`. -/
def modelMissingX : Model :=
  { name := "Page",
    objects_get := fun _ =>
      .error (.objectDoesNotExist (some "Page") "Page matching query does not exist") }

/-- A concrete URL resolver. -/
def urlsX : UrlConf :=
  { reverse := fun n _ => "/admin/" ++ n ++ "/1/" }

/-- A concrete `AdminChooser` configuration with a model and an edit URL
route name. -/
def wX : AdminChooserW :=
  { model := some modelX, edit_item_url_name := some "edit_page" }

/-- A concrete `AdminChooser` configuration whose lookups always fail. -/
def wMissX : AdminChooserW :=
  { model := some modelMissingX, edit_item_url_name := none }

/-- The saved instance that `modelX` returns for pk 1. -/
def instX : ModelInstance :=
  { modelName := "Page", pk := some (.int 1), strRepr := "Home" }

/-- An unsaved instance of the configured model: its `pk` is `None`. -/
def unsavedX : ModelInstance :=
  { modelName := "Page", pk := none, strRepr := "Unsaved page" }

/-- A concrete `DRFChooser` configuration with the inherited defaults
(`model = None`, no edit route). -/
def drfX : DRFChooserW :=
  { api_base_url := "http://api/", edit_item_url_name := none, model := none }

/-- An HTTP stub whose every response decodes to the empty JSON object. -/
def httpEmptyX : Http := { fetch := fun _ => .ok [] }

/-- An HTTP stub whose every response is a failure report carrying only a
`message` field. -/
def httpMsgX : Http :=
  { fetch := fun _ => .ok [("message", JVal.jstr "not found")] }

/-- An HTTP stub whose every request raises a connection error. -/
def httpFailX : Http :=
  { fetch := fun _ => .error (.requestsConnectionError "connection refused") }

/-! ### Claims -/

/-- C6 counterexample: `get_value_data(None)` evaluates to the
empty-selection record, not to the Python value `None`. -/
theorem C6_counterexample :
    get_value_data (AdminChooser.env urlsX wX) none = .ok (some emptyPayload) ∧
    (Except.ok (some emptyPayload) : Except PyExc (Option Payload)) ≠ .ok none := by
  refine ⟨rfl, ?_⟩
  intro h
  simp [emptyPayload] at h

/-- C6 (amended): for every chooser, `get_value_data(None)` returns the
empty-selection payload record with value `None`, title the empty string
and no edit URL; it never returns the bare value `None`. -/
theorem C6_none_gives_empty_record (c : ChooserEnv) :
    get_value_data c none = .ok (some emptyPayload) := rfl

/-- C7: when a model is configured, `AdminChooser.get_instance` returns
exactly the result of the single ORM lookup `self.model.objects.get(pk=value)`. -/
theorem C7_get_instance_is_orm_get (w : AdminChooserW) (m : Model) (v : RawValue)
    (hm : w.model = some m) :
    AdminChooser.get_instance w v = (m.objects_get v).map Inst.m := by
  unfold AdminChooser.get_instance
  rw [hm]

/-- C7 witness at a concrete widget and pk. -/
theorem C7_witness :
    AdminChooser.get_instance wX (.scalar (.int 1)) =
      ((modelX.objects_get (.scalar (.int 1))).map Inst.m) :=
  C7_get_instance_is_orm_get wX modelX (.scalar (.int 1)) rfl

/-- C8: `value_from_datadict` maps a raw value of the empty string to
`None` and returns every other raw value (including an absent one)
unchanged. -/
theorem C8_empty_string_is_none (data files : List (String × String)) (name : String) :
    (Widget.value_from_datadict data name = some "" →
      AdminChooser.value_from_datadict data files name = none) ∧
    (∀ r : Option String, Widget.value_from_datadict data name = r → r ≠ some "" →
      AdminChooser.value_from_datadict data files name = r) := by
  unfold AdminChooser.value_from_datadict
  constructor
  · intro h
    simp [h]
  · intro r h hne
    simp only [h]
    exact if_neg hne

/-- C8 witness: an empty submitted value becomes `None`; a nonempty one is
returned unchanged. -/
theorem C8_witness :
    AdminChooser.value_from_datadict [("fld", "")] [] "fld" = none ∧
    AdminChooser.value_from_datadict [("fld", "5")] [] "fld" = some "5" :=
  ⟨(C8_empty_string_is_none [("fld", "")] [] "fld").1 rfl,
   (C8_empty_string_is_none [("fld", "5")] [] "fld").2 (some "5") rfl (by simp)⟩

/-- When the instance branch is not taken, `get_value_data` on a non-None
value reduces to the lookup step followed by payload construction. -/
lemma get_value_data_lookup (c : ChooserEnv) (v : RawValue)
    (hb : isInstanceBranch c (some v) = false) :
    get_value_data c (some v) =
      match lookupStep c v with
      | .error e => .error e
      | .ok (none, _) => .ok (some emptyPayload)
      | .ok (some inst, val) =>
        match c.get_edit_item_url inst with
        | .error e => .error e
        | .ok u => .ok (some { value := val, title := c.get_title inst,
                               edit_item_url := u }) := by
  unfold get_value_data
  cases hm : c.model with
  | none => cases v <;> rfl
  | some m =>
    cases v with
    | scalar s => rfl
    | obj i =>
      have hb' : ¬ i.modelName = m.name := by
        simpa [isInstanceBranch, hm] using hb
      simp [hb']

/-- Lookup branch, successful lookup and successful edit-URL computation. -/
lemma get_value_data_lookup_found (c : ChooserEnv) (v : RawValue) (inst : Inst)
    (u : Option String)
    (hb : isInstanceBranch c (some v) = false)
    (hg : c.get_instance v = .ok inst)
    (he : c.get_edit_item_url inst = .ok u) :
    get_value_data c (some v) =
      .ok (some { value := some v, title := c.get_title inst,
                  edit_item_url := u }) := by
  rw [get_value_data_lookup c v hb]
  simp [lookupStep, hg, he]

/-- Lookup branch, successful lookup but `get_edit_item_url` raising. -/
lemma get_value_data_lookup_editerr (c : ChooserEnv) (v : RawValue) (inst : Inst)
    (e : PyExc)
    (hb : isInstanceBranch c (some v) = false)
    (hg : c.get_instance v = .ok inst)
    (he : c.get_edit_item_url inst = .error e) :
    get_value_data c (some v) = .error e := by
  rw [get_value_data_lookup c v hb]
  simp [lookupStep, hg, he]

/-- Lookup branch, lookup raising the caught not-found exception. -/
lemma get_value_data_lookup_caught (c : ChooserEnv) (v : RawValue) (e : PyExc)
    (hb : isInstanceBranch c (some v) = false)
    (hg : c.get_instance v = .error e)
    (hc : catchesNotFound c.model e = true) :
    get_value_data c (some v) = .ok (some emptyPayload) := by
  rw [get_value_data_lookup c v hb]
  simp [lookupStep, hg, hc]

/-- Lookup branch, lookup raising an exception that is not caught. -/
lemma get_value_data_lookup_uncaught (c : ChooserEnv) (v : RawValue) (e : PyExc)
    (hb : isInstanceBranch c (some v) = false)
    (hg : c.get_instance v = .error e)
    (hc : catchesNotFound c.model e = false) :
    get_value_data c (some v) = .error e := by
  rw [get_value_data_lookup c v hb]
  simp [lookupStep, hg, hc]

/-- C1: whenever `get_instance` raises the configured not-found exception
(`self.model.DoesNotExist` with a model configured, `ObjectDoesNotExist`
when `self.model is None`), `get_value_data` catches it and returns the
empty-selection payload instead of propagating it. -/
theorem C1_not_found_gives_empty (c : ChooserEnv) (v : RawValue) (e : PyExc)
    (hb : isInstanceBranch c (some v) = false)
    (hi : c.get_instance v = .error e)
    (hc : catchesNotFound c.model e = true) :
    get_value_data c (some v) = .ok (some emptyPayload) :=
  get_value_data_lookup_caught c v e hb hi hc

/-- C1 witness: a concrete widget whose lookup always raises the model's
`DoesNotExist` yields the empty payload. -/
theorem C1_witness :
    get_value_data (AdminChooser.env urlsX wMissX) (some (.scalar (.int 3))) =
      .ok (some emptyPayload) :=
  C1_not_found_gives_empty (AdminChooser.env urlsX wMissX) (.scalar (.int 3))
    (.objectDoesNotExist (some "Page") "Page matching query does not exist")
    rfl rfl rfl

/-- C2: when the lookup branch finds an instance, the payload carries the
original value, the title `get_title(instance)` (by default
`str(instance)`), and `get_edit_item_url(instance)`, which is `None`
exactly when `edit_item_url_name` is `None`. -/
theorem C2_found_gives_populated_payload (urls : UrlConf) (w : AdminChooserW)
    (v : RawValue) (i : ModelInstance)
    (hb : isInstanceBranch (AdminChooser.env urls w) (some v) = false)
    (hi : AdminChooser.get_instance w v = .ok (Inst.m i)) :
    ∃ u : Option String,
      AdminChooser.get_edit_item_url urls w (Inst.m i) = .ok u ∧
      (u = none ↔ w.edit_item_url_name = none) ∧
      get_value_data (AdminChooser.env urls w) (some v) =
        .ok (some { value := some v, title := strOfInst (Inst.m i),
                    edit_item_url := u }) := by
  have hstep := get_value_data_lookup (AdminChooser.env urls w) v hb
  cases hu : w.edit_item_url_name with
  | none =>
    refine ⟨none, ?_, ?_, ?_⟩
    · simp [AdminChooser.get_edit_item_url, hu]
    · simp [hu]
    · rw [hstep]
      simp [lookupStep, AdminChooser.env, hi, AdminChooser.get_edit_item_url, hu]
  | some n =>
    refine ⟨some (urls.reverse n (UrlArg.scalar (i.pk.map djangoQuote))), ?_, ?_, ?_⟩
    · simp [AdminChooser.get_edit_item_url, hu]
    · simp [hu]
    · rw [hstep]
      simp [lookupStep, AdminChooser.env, hi, AdminChooser.get_edit_item_url, hu]

/-- C2 witness: the concrete widget finds pk 1 and produces the populated
payload with the reversed edit URL. -/
theorem C2_witness :
    ∃ u : Option String,
      AdminChooser.get_edit_item_url urlsX wX (Inst.m instX) = .ok u ∧
      (u = none ↔ wX.edit_item_url_name = none) ∧
      get_value_data (AdminChooser.env urlsX wX) (some (.scalar (.int 1))) =
        .ok (some { value := some (.scalar (.int 1)), title := strOfInst (Inst.m instX),
                    edit_item_url := u }) :=
  C2_found_gives_populated_payload urlsX wX (.scalar (.int 1)) instX rfl rfl

/-- When a model is configured and the value is an instance of it,
`get_value_data` keeps that instance and replaces the value by its pk. -/
lemma get_value_data_instance (c : ChooserEnv) (m : Model) (i : ModelInstance)
    (hm : c.model = some m) (hisi : i.modelName = m.name) :
    get_value_data c (some (.obj i)) =
      match c.get_edit_item_url (Inst.m i) with
      | .error e => .error e
      | .ok u => .ok (some { value := i.pk.map RawValue.scalar,
                             title := c.get_title (Inst.m i),
                             edit_item_url := u }) := by
  unfold get_value_data
  simp [hm, hisi]

/-- C9: a value that is already an instance of the configured model is
used directly: the payload value is `instance.pk`, title and edit URL
come from that instance, and the result does not depend on
`get_instance` at all (no lookup is performed). -/
theorem C9_instance_value_uses_pk (urls : UrlConf) (w : AdminChooserW)
    (m : Model) (i : ModelInstance)
    (hm : w.model = some m) (hisi : i.modelName = m.name) :
    ∃ u : Option String,
      AdminChooser.get_edit_item_url urls w (Inst.m i) = .ok u ∧
      get_value_data (AdminChooser.env urls w) (some (.obj i)) =
        .ok (some { value := i.pk.map RawValue.scalar,
                    title := strOfInst (Inst.m i), edit_item_url := u }) ∧
      (∀ f : RawValue → Except PyExc Inst,
        get_value_data { AdminChooser.env urls w with get_instance := f }
            (some (.obj i)) =
          get_value_data (AdminChooser.env urls w) (some (.obj i))) := by
  have hm' : (AdminChooser.env urls w).model = some m := hm
  have hstep := get_value_data_instance (AdminChooser.env urls w) m i hm' hisi
  have hind : ∀ f : RawValue → Except PyExc Inst,
      get_value_data { AdminChooser.env urls w with get_instance := f }
          (some (.obj i)) =
        get_value_data (AdminChooser.env urls w) (some (.obj i)) := by
    intro f
    rw [get_value_data_instance { AdminChooser.env urls w with get_instance := f }
          m i hm' hisi, hstep]
  cases hu : w.edit_item_url_name with
  | none =>
    refine ⟨none, ?_, ?_, hind⟩
    · simp [AdminChooser.get_edit_item_url, hu]
    · rw [hstep]
      simp [AdminChooser.env, AdminChooser.get_edit_item_url, hu]
  | some n =>
    refine ⟨some (urls.reverse n (UrlArg.scalar (i.pk.map djangoQuote))), ?_, ?_, hind⟩
    · simp [AdminChooser.get_edit_item_url, hu]
    · rw [hstep]
      simp [AdminChooser.env, AdminChooser.get_edit_item_url, hu]

/-- C9 witness at the concrete saved instance of the configured model. -/
theorem C9_witness :
    ∃ u : Option String,
      AdminChooser.get_edit_item_url urlsX wX (Inst.m instX) = .ok u ∧
      get_value_data (AdminChooser.env urlsX wX) (some (.obj instX)) =
        .ok (some { value := instX.pk.map RawValue.scalar,
                    title := strOfInst (Inst.m instX), edit_item_url := u }) ∧
      (∀ f : RawValue → Except PyExc Inst,
        get_value_data { AdminChooser.env urlsX wX with get_instance := f }
            (some (.obj instX)) =
          get_value_data (AdminChooser.env urlsX wX) (some (.obj instX))) :=
  C9_instance_value_uses_pk urlsX wX modelX instX rfl rfl

/-- C10 counterexample: passing an unsaved instance (pk `None`) of the
configured model produces a payload whose value field is `None` but whose
title is the instance title and whose edit URL is populated, so the
empty-selection payload is not the unique returned payload with a `None`
value. -/
theorem C10_counterexample :
    get_value_data (AdminChooser.env urlsX wX) (some (.obj unsavedX)) =
      .ok (some { value := none, title := "Unsaved page",
                  edit_item_url := some "/admin/edit_page/1/" }) ∧
    ("Unsaved page" : String) ≠ "" ∧
    some "/admin/edit_page/1/" ≠ (none : Option String) := by
  refine ⟨rfl, by decide, by decide⟩

/-- C10 (amended): every returned payload has exactly the keys `value`,
`title`, `edit_item_url`; and on every input that does not hit the
model-instance branch, a returned payload with value `None` is the
empty-selection payload (empty title, no edit URL). The restriction is
forced: an unsaved model instance with pk `None` yields value `None`
with a populated title. -/
theorem C10_payload_shape (c : ChooserEnv) (value : Option RawValue) (p : Payload)
    (h : get_value_data c value = .ok (some p)) :
    p.toDict.map Prod.fst = ["value", "title", "edit_item_url"] ∧
    (isInstanceBranch c value = false → p.value = none →
      p.title = "" ∧ p.edit_item_url = none) := by
  refine ⟨by simp [Payload.toDict], ?_⟩
  intro hbr hv
  cases value with
  | none =>
    simp [get_value_data] at h
    rw [← h]
    simp [emptyPayload]
  | some v =>
    cases hg : c.get_instance v with
    | ok inst =>
      cases he : c.get_edit_item_url inst with
      | error e =>
        rw [get_value_data_lookup_editerr c v inst e hbr hg he] at h
        simp at h
      | ok u =>
        rw [get_value_data_lookup_found c v inst u hbr hg he] at h
        simp only [Except.ok.injEq, Option.some.injEq] at h
        subst h
        simp at hv
    | error e =>
      by_cases hcatch : catchesNotFound c.model e = true
      · rw [get_value_data_lookup_caught c v e hbr hg hcatch] at h
        simp only [Except.ok.injEq, Option.some.injEq] at h
        subst h
        simp [emptyPayload]
      · rw [get_value_data_lookup_uncaught c v e hbr hg
            (by simpa using hcatch)] at h
        simp at h

/-- C10 amended-claim witness at the concrete empty-selection call. -/
theorem C10_witness :
    emptyPayload.toDict.map Prod.fst = ["value", "title", "edit_item_url"] ∧
    (isInstanceBranch (AdminChooser.env urlsX wX) none = false →
      emptyPayload.value = none →
      emptyPayload.title = "" ∧ emptyPayload.edit_item_url = none) :=
  C10_payload_shape (AdminChooser.env urlsX wX) none emptyPayload rfl

/-- The instance branch is never taken when `model` is `None`. -/
lemma isInstanceBranch_of_no_model (c : ChooserEnv) (v : RawValue)
    (hm : c.model = none) : isInstanceBranch c (some v) = false := by
  cases v with
  | scalar s => rfl
  | obj i => simp [isInstanceBranch, hm]

/-- C3 counterexample: with a response that lacks both `id` and `message`
(the empty JSON object), the normalization does not succeed: a `KeyError`
escapes instead of the empty-selection payload being returned. -/
theorem C3_counterexample :
    get_value_data (DRFChooser.env httpEmptyX urlsX drfX) (some (.scalar (.int 7))) =
      .error (.keyError "message") ∧
    (Except.error (.keyError "message") : Except PyExc (Option Payload)) ≠
      .ok (some emptyPayload) := by
  refine ⟨rfl, ?_⟩
  intro h
  simp at h

/-- C3 (amended): a response lacking `id` is normalized to the
empty-selection payload provided it carries a `message` field (as failure
responses do); with both fields absent, the `result['message']` subscript
raises `KeyError` and no payload is produced. -/
theorem C3_missing_id_with_message_is_empty (http : Http) (urls : UrlConf)
    (w : DRFChooserW) (v : RawValue) (d : JsonDict) (msg : JVal)
    (hm : w.model = none)
    (hf : http.fetch (DRFChooser.request_url w v) = .ok d)
    (hid : d.lookup "id" = none)
    (hmsg : d.lookup "message" = some msg) :
    get_value_data (DRFChooser.env http urls w) (some v) =
      .ok (some emptyPayload) := by
  have hb : isInstanceBranch (DRFChooser.env http urls w) (some v) = false :=
    isInstanceBranch_of_no_model _ v hm
  have hgi : (DRFChooser.env http urls w).get_instance v =
      .error (.objectDoesNotExist none msg.pyStr) := by
    simp [DRFChooser.env, DRFChooser.get_instance, hf, hid, hmsg, Except.map]
  exact get_value_data_lookup_caught _ v _ hb hgi (by simp [catchesNotFound, DRFChooser.env, hm])

/-- C3 amended-claim witness: a concrete 404-style response with only a
`message` field yields the empty payload. -/
theorem C3_witness :
    get_value_data (DRFChooser.env httpMsgX urlsX drfX) (some (.scalar (.int 7))) =
      .ok (some emptyPayload) :=
  C3_missing_id_with_message_is_empty httpMsgX urlsX drfX (.scalar (.int 7))
    [("message", JVal.jstr "not found")] (JVal.jstr "not found") rfl rfl rfl rfl

/-- C4 counterexample: for the id string `a/b` the requested URL carries
Django admin quoting (`a_2Fb`), so it differs from the plain
concatenation `api_base_url + id + "/?format=json"`. -/
theorem C4_counterexample :
    (DRFChooser.get_instance httpEmptyX drfX (.scalar (.str "a/b"))).1 =
      ["http://api/a_2Fb/?format=json"] ∧
    "http://api/a_2Fb/?format=json" ≠ "http://api/" ++ "a/b" ++ "/?format=json" := by
  refine ⟨rfl, by decide⟩

/-- Quoting is the identity on a character list free of special characters. -/
lemma flatten_quoteChar_of_plain (l : List Char)
    (h : ∀ c ∈ l, c ∉ QUOTE_CHARS) : (l.map quoteChar).flatten = l := by
  induction l with
  | nil => rfl
  | cons c cs ih =>
    have hc : c ∉ QUOTE_CHARS := h c (List.mem_cons_self c cs)
    have ih' := ih (fun x hx => h x (List.mem_cons_of_mem c hx))
    simp [quoteChar, hc, ih']

/-- C4 (amended): `get_instance` issues exactly one GET, to
`api_base_url + quote(id) + "/?format=json"` with Django admin quoting;
whenever the id is a string containing no quoted character, this is the
plain concatenation `api_base_url + id + "/?format=json"`. -/
theorem C4_requested_url :
    (∀ (http : Http) (w : DRFChooserW) (id : RawValue),
      (DRFChooser.get_instance http w id).1 = [DRFChooser.request_url w id]) ∧
    (∀ (http : Http) (w : DRFChooserW) (s : String),
      (∀ c ∈ s.toList, c ∉ QUOTE_CHARS) →
      (DRFChooser.get_instance http w (.scalar (.str s))).1 =
        [w.api_base_url ++ s ++ "/?format=json"]) := by
  constructor
  · intro http w id
    rfl
  · intro http w s h
    have hq : quoteStr s = s := by
      unfold quoteStr
      rw [flatten_quoteChar_of_plain s.toList h]
      cases s
      rfl
    simp [DRFChooser.get_instance, DRFChooser.request_url, rawQuote,
      djangoQuote, rawPyStr, pyStr, hq]

/-- C4 witness: for the plain string id `abc` the single requested URL is
the plain concatenation. -/
theorem C4_witness :
    (DRFChooser.get_instance httpEmptyX drfX (.scalar (.str "abc"))).1 =
      [drfX.api_base_url ++ "abc" ++ "/?format=json"] :=
  C4_requested_url.2 httpEmptyX drfX "abc" (by decide)

/-- C5: a network or JSON-decode failure of the remote GET is raised out
of `get_instance` and propagates through `get_value_data` unchanged — it
is not the caught not-found exception and no payload is produced. -/
theorem C5_transport_error_propagates (http : Http) (urls : UrlConf)
    (w : DRFChooserW) (v : RawValue) (e : PyExc)
    (hm : w.model = none)
    (hf : http.fetch (DRFChooser.request_url w v) = .error e)
    (ht : isTransportError e = true) :
    (DRFChooser.env http urls w).get_instance v = .error e ∧
    get_value_data (DRFChooser.env http urls w) (some v) = .error e := by
  have hgi : (DRFChooser.env http urls w).get_instance v = .error e := by
    simp [DRFChooser.env, DRFChooser.get_instance, hf, Except.map]
  refine ⟨hgi, ?_⟩
  have hb : isInstanceBranch (DRFChooser.env http urls w) (some v) = false :=
    isInstanceBranch_of_no_model _ v hm
  have hnc : catchesNotFound (DRFChooser.env http urls w).model e = false := by
    cases e with
    | objectDoesNotExist who msg => simp [isTransportError] at ht
    | keyError k => simp [isTransportError] at ht
    | attributeError msg => simp [isTransportError] at ht
    | requestsConnectionError msg => rfl
    | jsonDecodeError msg => rfl
  exact get_value_data_lookup_uncaught _ v e hb hgi hnc

/-- C5 witness: a concrete connection failure propagates out of
`get_value_data`. -/
theorem C5_witness :
    (DRFChooser.env httpFailX urlsX drfX).get_instance (.scalar (.int 7)) =
      .error (.requestsConnectionError "connection refused") ∧
    get_value_data (DRFChooser.env httpFailX urlsX drfX) (some (.scalar (.int 7))) =
      .error (.requestsConnectionError "connection refused") :=
  C5_transport_error_propagates httpFailX urlsX drfX (.scalar (.int 7))
    (.requestsConnectionError "connection refused") rfl rfl rfl
